import Mathlib

/-!
# Verification of `strava-scraper.py`

A shallow embedding of the core logic of `src/strava-scraper.py`:
unit/time conversion helpers, the Strava OAuth token flow
(`get_strava_access_token`), the Google-Sheets publisher
(`upload_runs_to_gsheets`), and the pagination loop in `main`.

External effects (file system, network, console) are modelled by explicit
inputs (does the token cache file exist; what did the sheets read return;
what does page `p` of the activities API contain) and by outcome values
that record which external call the code would make next, or which Python
exception escapes uncaught.
-/

namespace StravaScraper

/-- Source `meters_to_miles` (line 46-48): `meters * 0.000621371`.
The float literal `0.000621371` is modelled as the exact rational it denotes
in source text. -/
def meters_to_miles (meters : ℚ) : ℚ := meters * (621371 / 1000000000)

/-- Python's `%02d` formatting used inside `str(datetime.timedelta)`. -/
def pad2 (n : Nat) : String := if n < 10 then "0" ++ toString n else toString n

/-- Source `seconds_to_hms` (line 51-53): `str(datetime.timedelta(seconds=seconds))`.
`timedelta.__str__` normalises to days, then renders
`[D day(s), ]H:MM:SS` with zero-padded minutes and seconds and an
unpadded hour field; the day prefix appears only when the day count is
nonzero, pluralised unless it is exactly 1. -/
def seconds_to_hms (seconds : Nat) : String :=
  let days := seconds / 86400
  let rem := seconds % 86400
  let hh := rem / 3600
  let mm := rem % 3600 / 60
  let ss := rem % 60
  (if days = 0 then ""
   else toString days ++ (if days = 1 then " day, " else " days, "))
    ++ toString hh ++ ":" ++ pad2 mm ++ ":" ++ pad2 ss

/-- The `H:MM:SS` rendering of a number of seconds, as the spec describes
the output of `seconds_to_hms` ("elapsed seconds converted to `H:MM:SS`
text"): hours unpadded, minutes and seconds zero-padded to two digits.
Spec-side definition, used to compare against `seconds_to_hms`. -/
def hmsText (s : Nat) : String :=
  toString (s / 3600) ++ ":" ++ pad2 (s % 3600 / 60) ++ ":" ++ pad2 (s % 60)

/-! ## The Strava OAuth token flow (`get_strava_access_token`, lines 181-256) -/

/-- The cached token record parsed from `STRAVA_OAUTH_SECRET_FILE`
(a JSON object; every field is read with `.get(key, None)`, so each is
optional). Timestamps are modelled as rationals, standing for the Python
floats compared at line 202. -/
structure TokenRecord where
  access_token : Option String
  refresh_token : Option String
  expires_at : Option ℚ
deriving DecidableEq

/-- What `get_strava_access_token` does after inspecting the cache:
either it returns the cached token without any network call, or it
proceeds to `requests.post` with one of the two grant types, or it dies
with a `TypeError` at the `now < expires_at` comparison (line 202-204)
when `expires_at` is missing (`None`). -/
inductive TokenFlowAction where
  | cachedToken (tok : Option String)
  | refreshPost (refreshTok : Option String)
  | authCodePost (code : String)
  | expiresAtTypeError
deriving DecidableEq

/-- The cache-inspection phase of `get_strava_access_token` (lines 192-226).
`fileExists` models `os.path.exists(STRAVA_OAUTH_SECRET_FILE)`; `cached` the
parsed JSON when it exists; `now` is `datetime.datetime.now().timestamp()`;
`typedCode` is what the operator would paste at the `input()` prompt.

* file exists, `expires_at` missing: the comparison
  `now < oauth_tok_data.get("expires_at", None)` compares a float with
  `None` — `TypeError`.
* file exists, `now < expires_at`: return the cached `access_token`
  (line 209); no POST, no file write.
* file exists, token expired: set `payload["refresh_token"]` to the cached
  refresh token (possibly `None`) and `grant_type = "refresh_token"`, then
  POST (lines 210-213, 230).
* file absent: print the authorize URL, prompt for a code with `input()`,
  and POST with `grant_type = "authorization_code"` (lines 215-226, 230). -/
def get_strava_access_token (fileExists : Bool) (cached : TokenRecord)
    (now : ℚ) (typedCode : String) : TokenFlowAction :=
  if fileExists then
    match cached.expires_at with
    | none => .expiresAtTypeError
    | some e =>
      if now < e then .cachedToken cached.access_token
      else .refreshPost cached.refresh_token
  else .authCodePost typedCode

/-- Whether the token flow goes on to `requests.post(ACCESS_TOKEN_URL, ...)`
(line 230). Only the two POST actions reach it. -/
def postsToTokenEndpoint : TokenFlowAction → Bool
  | .cachedToken _ => false
  | .refreshPost _ => true
  | .authCodePost _ => true
  | .expiresAtTypeError => false

/-- Whether the flow can reach the token-cache rewrite at line 246
(`open(STRAVA_OAUTH_SECRET_FILE, "w")`), which happens only after a
successful POST. The cached-token return path and the `TypeError` path
never touch the file. -/
def writesTokenCache : TokenFlowAction → Bool
  | .cachedToken _ => false
  | .refreshPost _ => true
  | .authCodePost _ => true
  | .expiresAtTypeError => false

/-- Whether the flow prompts the operator for an authorization code via
`input()` (line 223); only the no-cache-file branch does. -/
def promptsForAuthCode : TokenFlowAction → Bool
  | .authCodePost _ => true
  | _ => false

/-! ## Activities and run records -/

/-- A raw activity as returned by the Strava API: a JSON object whose
fields are all read with `.get`, hence optional. Numeric JSON fields are
modelled as `Int` (the id, elapsed seconds) or `ℚ` (float-valued fields). -/
structure Activity where
  type : Option String
  id : Option Int
  name : Option String
  distance : Option ℚ
  elapsed_time : Option Nat
  start_date_local : Option String
  average_cadence : Option ℚ
  total_elevation_gain : Option ℚ
  average_speed : Option ℚ
  average_heartrate : Option ℚ
deriving DecidableEq

/-- The run record `main` builds for each activity with `type == "Run"`
(lines 333-341). `miles_run` holds the converted numeric value; the source
formats it with `f"{miles_run:.2f}"` for display only (binary-float string
rendering, outside this embedding). `average_cadence` keeps the optional
raw value; `None` corresponds to the `"N/A"` default. -/
structure RunRecord where
  name : String
  date : String
  miles_run : ℚ
  time_elapsed : String
  average_cadence : Option ℚ
deriving DecidableEq

/-- The record appended to `all_runs` for one running activity
(lines 325-341). -/
def runRecordOf (activity : Activity) : RunRecord :=
  { name := activity.name.getD "Unnamed Run"
    date := activity.start_date_local.getD "N/A"
    miles_run := meters_to_miles (activity.distance.getD 0)
    time_elapsed := seconds_to_hms (activity.elapsed_time.getD 0)
    average_cadence := activity.average_cadence }

/-- The `for activity in activities` filter in `main` (lines 323-341):
append a run record for each activity whose `type` equals `"Run"`. -/
def extractRuns (activities : List Activity) : List RunRecord :=
  activities.foldl
    (fun rs a => if a.type = some "Run" then rs ++ [runRecordOf a] else rs) []

/-! ## The publisher (`upload_runs_to_gsheets`, lines 89-179) -/

/-- A spreadsheet cell value in the payload built at lines 136-161: Python
puts heterogeneous values in the rows (ints, strings, floats). -/
inductive Cell where
  | str (s : String)
  | int (n : Int)
  | rat (q : ℚ)
deriving DecidableEq

/-- A Python exception escaping `upload_runs_to_gsheets` uncaught. -/
inductive PyError where
  | nameError
  | indexError
deriving DecidableEq

/-- Decimal digits to a number, most significant first. -/
def digitsToNat : List Char → Nat → Nat
  | [], acc => acc
  | c :: cs, acc => digitsToNat cs (acc * 10 + (c.toNat - '0'.toNat))

/-- A nonempty all-digit character run parsed as a `Nat`, `none` otherwise. -/
def parseDigits (cs : List Char) : Option Nat :=
  if cs ≠ [] ∧ cs.all Char.isDigit then some (digitsToNat cs 0) else none

/-- Leading and trailing whitespace removed. -/
def stripSpaces (cs : List Char) : List Char :=
  ((cs.dropWhile Char.isWhitespace).reverse.dropWhile Char.isWhitespace).reverse

/-- Python `int(s)` on a string cell, as used at line 127: strip
surrounding whitespace, accept an optional sign followed by decimal
digits, and `None` — standing for the `ValueError` the loop catches —
otherwise. (Python also accepts underscore digit separators; the sheet
cells in play are plain decimal strings, so that is not modelled.) -/
def pyInt (s : String) : Option Int :=
  match stripSpaces s.toList with
  | [] => none
  | '-' :: rest => (parseDigits rest).map (fun n => -(n : Int))
  | '+' :: rest => (parseDigits rest).map (fun n => (n : Int))
  | t => (parseDigits t).map (fun n => (n : Int))

/-- One step of the dedupe loop at lines 125-131, processing one sheet row
(cells read back from the Sheets API are strings):

* `int(row[0])` parses: add it to the set.
* `row[0]` exists but does not parse (`ValueError`): the handler prints
  `f"Skipping row {row[0]} ..."` — which succeeds — and continues.
* the row is empty: `int(row[0])` raises `IndexError`, and then the
  handler itself evaluates `row[0]` inside the f-string and raises a fresh
  uncaught `IndexError`. -/
def addExistingRun (acc : Except PyError (Finset Int)) (row : List String) :
    Except PyError (Finset Int) :=
  match acc with
  | .error e => .error e
  | .ok s =>
    match row with
    | [] => .error .indexError
    | c :: _ =>
      match pyInt c with
      | some n => .ok (insert n s)
      | none => .ok s

/-- The `existing_runs` set built from the sheet rows (lines 119-131): the
header row `existing_values[0]` is skipped, then each remaining row is
processed by `addExistingRun`. -/
def buildExistingRuns (rows : List (List String)) : Except PyError (Finset Int) :=
  (rows.drop 1).foldl addExistingRun (.ok ∅)

/-- The header row written when no existing runs were found (lines 136-138). -/
def headerRow : List Cell :=
  [.str "ID", .str "Name", .str "Date", .str "Distance Run (Meters)",
   .str "Time Elapsed", .str "Average Cadence", .str "Elevation Gain",
   .str "Average Speed", .str "Average Heart Rate"]

/-- The cell for `run.get(key, "N/A")` on a float-valued field. -/
def cellOrNA (v : Option ℚ) : Cell :=
  match v with
  | some q => .rat q
  | none => .str "N/A"

/-- The row appended for one run at lines 149-161, with each field read by
`run.get(key, default)`. -/
def rowOfRun (run : Activity) : List Cell :=
  [ .int (run.id.getD 0),
    .str (run.name.getD "Unnamed Run"),
    .str (run.start_date_local.getD "N/A"),
    (match run.distance with | some q => .rat q | none => .int 0),
    (match run.elapsed_time with | some n => .int (n : Int) | none => .str "00:00:00"),
    cellOrNA run.average_cadence,
    cellOrNA run.total_elevation_gain,
    cellOrNA run.average_speed,
    cellOrNA run.average_heartrate ]

/-- The dedupe test `run.get("id") in existing_runs` at line 146: a missing
id yields `None`, which is never a member of a set of ints. -/
def idInExisting (id : Option Int) (existing : Finset Int) : Bool :=
  match id with
  | some n => decide (n ∈ existing)
  | none => false

/-- The initial `values` list (lines 134-141): a lone header row when
`len(existing_runs) == 0`, empty otherwise. -/
def initValues (existing : Finset Int) : List (List Cell) :=
  if existing = ∅ then [headerRow] else []

/-- The `for run in runs` loop at lines 144-161: starting from `init`,
skip each run whose id is in `existing_runs`, append `rowOfRun run`
for each other run. -/
def newRunRows (existing : Finset Int) (runs : List Activity)
    (init : List (List Cell)) : List (List Cell) :=
  runs.foldl
    (fun vs run =>
      if idInExisting run.id existing then vs else vs ++ [rowOfRun run]) init

/-- The complete `values` payload assembled by lines 134-161. -/
def buildValues (existing : Finset Int) (runs : List Activity) : List (List Cell) :=
  newRunRows existing runs (initValues existing)

/-- The observable outcome of `upload_runs_to_gsheets`:
authentication failure return (line 100-102), an uncaught Python
exception, the early return with no write call (lines 163-165), or the
`values().update` call with its payload (lines 169-175). -/
inductive UploadOutcome where
  | authFailed
  | raised (e : PyError)
  | noWrite
  | wrote (values : List (List Cell))
deriving DecidableEq

/-- Lines 133-175 of `upload_runs_to_gsheets`, once the `existing_runs`
set is known: build `values` and either return without writing
(`if not values`) or call `update` with the payload. -/
def uploadGivenSet (existing : Finset Int) (runs : List Activity) : UploadOutcome :=
  let values := buildValues existing runs
  if values = [] then .noWrite else .wrote values

/-- Source `upload_runs_to_gsheets` (lines 89-179). `authOk` models the
`google_auth()` result; `readResult` the `values().get().execute()` read
(`.ok rows` on success — `result.get("values", [])` makes a missing key the
empty row list — and `.error ()` when the read raises `HttpError`).

On `HttpError` the handler at line 115-116 prints the error and falls
through, but `existing_values` was assigned only inside the `try:` block,
so the very next use `if not existing_values:` (line 120) raises an
uncaught `UnboundLocalError` (a `NameError`). -/
def upload_runs_to_gsheets (authOk : Bool)
    (readResult : Except Unit (List (List String)))
    (runs : List Activity) : UploadOutcome :=
  if authOk then
    match readResult with
    | .error _ => .raised .nameError
    | .ok rows =>
      match buildExistingRuns rows with
      | .error e => .raised e
      | .ok existing => uploadGivenSet existing runs
  else .authFailed

/-! ## The pagination loop in `main` (lines 290-351) -/

/-- The state of `main`'s fetch loop when it exits: the accumulated
`all_runs`, the final value of the loop variable `activities`, and the
list of page numbers passed to `get_strava_activities`, in call order. -/
structure MainState where
  all_runs : List RunRecord
  activities : List Activity
  pagesFetched : List Nat
deriving DecidableEq

/-- The `while True` loop of `main` (lines 301-347), with the activities
API modelled as `oracle : page number → activity list` and termination
witnessed by `fuel` (`none` means the loop runs longer than `fuel`
iterations). Each iteration fetches `oracle page` with `per_page=100`,
breaks immediately on an empty result, otherwise extracts run records,
breaks when fewer than 100 activities came back, and otherwise moves to
the next page. -/
def fetchLoop (oracle : Nat → List Activity) :
    Nat → Nat → List RunRecord → List Nat → Option MainState
  | 0, _, _, _ => none
  | fuel + 1, page, all_runs, fetched =>
    let activities := oracle page
    let fetched' := fetched ++ [page]
    if activities = [] then some ⟨all_runs, activities, fetched'⟩
    else
      let all_runs' := all_runs ++ extractRuns activities
      if activities.length < 100 then some ⟨all_runs', activities, fetched'⟩
      else fetchLoop oracle fuel (page + 1) all_runs' fetched'

/-- The loop of `main` started as the code starts it: `page = 1`,
`all_runs = []`, no pages fetched yet. -/
def mainLoop (oracle : Nat → List Activity) (fuel : Nat) : Option MainState :=
  fetchLoop oracle fuel 1 [] []

/-- The argument `main` passes to `upload_runs_to_gsheets` in upload mode
(line 351): the loop variable `activities`, i.e. the raw list of the final
fetched page — not `all_runs`. -/
def uploadedActivities (st : MainState) : List Activity := st.activities

/-! ## Concrete fixtures used in counterexamples and witnesses -/

/-- A cached token record that is expired (`expires_at = 0`) and has no
refresh token. -/
def expiredNoRefresh : TokenRecord :=
  { access_token := some "cached-token", refresh_token := none, expires_at := some 0 }

/-- A cached token record valid until timestamp 100. -/
def freshRecord : TokenRecord :=
  { access_token := some "cached-token", refresh_token := some "refresh", expires_at := some 100 }

/-- A cached token record whose JSON has no `expires_at` field. -/
def noExpiryRecord : TokenRecord :=
  { access_token := some "cached-token", refresh_token := some "refresh", expires_at := none }

/-- A running activity with id 1. -/
def runAct1 : Activity :=
  { type := some "Run", id := some 1, name := some "Run one",
    distance := some 1000, elapsed_time := some 300,
    start_date_local := some "2024-01-01", average_cadence := none,
    total_elevation_gain := none, average_speed := none, average_heartrate := none }

/-- A running activity with id 2. -/
def runAct2 : Activity :=
  { type := some "Run", id := some 2, name := some "Run two",
    distance := some 2000, elapsed_time := some 600,
    start_date_local := some "2024-01-02", average_cadence := none,
    total_elevation_gain := none, average_speed := none, average_heartrate := none }

/-- A running activity with id 3. -/
def runAct3 : Activity :=
  { type := some "Run", id := some 3, name := some "Run three",
    distance := some 3000, elapsed_time := some 900,
    start_date_local := some "2024-01-03", average_cadence := none,
    total_elevation_gain := none, average_speed := none, average_heartrate := none }

/-- A non-running activity (a ride), id 5. -/
def rideAct : Activity :=
  { type := some "Ride", id := some 5, name := some "A ride",
    distance := some 5000, elapsed_time := some 1200,
    start_date_local := some "2024-01-04", average_cadence := none,
    total_elevation_gain := none, average_speed := none, average_heartrate := none }

/-! ## Shared lemmas -/

/-- The run loop of the publisher appends, after `init`, exactly one row
per run whose id is not in the existing set, in order. -/
theorem newRunRows_eq (existing : Finset Int) (runs : List Activity)
    (init : List (List Cell)) :
    newRunRows existing runs init =
      init ++ (runs.filter (fun r => !idInExisting r.id existing)).map rowOfRun := by
  induction runs generalizing init with
  | nil => simp [newRunRows]
  | cons r rs ih =>
    by_cases h : idInExisting r.id existing
    · simp [newRunRows, List.foldl_cons, h] at ih ⊢
      exact ih init
    · simp [newRunRows, List.foldl_cons, h] at ih ⊢
      rw [ih (init ++ [rowOfRun r])]
      simp

/-- When the fetch loop of `main` terminates, the final value of the loop
variable `activities` is exactly what the activities API returned for the
last page number that was requested. -/
theorem fetchLoop_last_page (oracle : Nat → List Activity) :
    ∀ (fuel page : Nat) (runs : List RunRecord) (fetched : List Nat) (st : MainState),
      fetchLoop oracle fuel page runs fetched = some st →
      ∃ q, st.pagesFetched.getLast? = some q ∧ st.activities = oracle q := by
  intro fuel
  induction fuel with
  | zero =>
    intro page runs fetched st h
    simp [fetchLoop] at h
  | succ n ih =>
    intro page runs fetched st h
    simp only [fetchLoop] at h
    split_ifs at h with he hlt
    · obtain rfl := Option.some_injective _ h
      exact ⟨page, by simp [List.getLast?_concat], rfl⟩
    · obtain rfl := Option.some_injective _ h
      exact ⟨page, by simp [List.getLast?_concat], rfl⟩
    · exact ih _ _ _ _ h

/-- If pages `page, page+1, ..., page+k-1` are full (exactly 100
activities) and page `page+k` is short, the fetch loop terminates having
requested exactly the pages `page, ..., page+k`, in order, appended to the
pages already fetched. -/
theorem fetchLoop_pages_exact (oracle : Nat → List Activity) :
    ∀ (k fuel page : Nat) (runs : List RunRecord) (fetched : List Nat),
      (∀ i, i < k → (oracle (page + i)).length = 100) →
      (oracle (page + k)).length < 100 →
      k + 1 ≤ fuel →
      ∃ st, fetchLoop oracle fuel page runs fetched = some st ∧
        st.pagesFetched = fetched ++ List.range' page (k + 1) := by
  intro k
  induction k with
  | zero =>
    intro fuel page runs fetched hfull hlast hfuel
    obtain ⟨n, rfl⟩ : ∃ n, fuel = n + 1 := ⟨fuel - 1, by omega⟩
    simp only [Nat.add_zero] at hlast
    by_cases he : oracle page = []
    · exact ⟨⟨runs, oracle page, fetched ++ [page]⟩, by simp [fetchLoop, he], by simp⟩
    · refine ⟨⟨runs ++ extractRuns (oracle page), oracle page, fetched ++ [page]⟩, ?_, by simp⟩
      simp [fetchLoop, he, hlast]
  | succ k ih =>
    intro fuel page runs fetched hfull hlast hfuel
    obtain ⟨n, rfl⟩ : ∃ n, fuel = n + 1 := ⟨fuel - 1, by omega⟩
    have h0 : (oracle page).length = 100 := by
      have := hfull 0 (by omega)
      simpa using this
    have hne : oracle page ≠ [] := by
      intro hh
      rw [hh] at h0
      simp at h0
    have hnotlt : ¬ (oracle page).length < 100 := by omega
    obtain ⟨st, hst, hpages⟩ :=
      ih n (page + 1) (runs ++ extractRuns (oracle page)) (fetched ++ [page])
        (fun i hi => by
          have := hfull (i + 1) (by omega)
          rwa [show page + (i + 1) = page + 1 + i by omega] at this)
        (by rwa [show page + 1 + k = page + (k + 1) by omega])
        (by omega)
    refine ⟨st, ?_, ?_⟩
    · simp only [fetchLoop, if_neg hne, if_neg hnotlt]
      exact hst
    · rw [hpages, List.append_assoc, List.singleton_append, ← List.range'_succ]

/-! ## Claim theorems -/

/-- Claim C6: for every cached token record with `expires_at` strictly in the
future, `get_strava_access_token` returns the cached access token
unchanged, makes no POST to the token endpoint, and never reaches the
token-cache file write. -/
theorem fresh_token_no_network_no_write (rec : TokenRecord) (now e : ℚ) (code : String)
    (he : rec.expires_at = some e) (hvalid : now < e) :
    get_strava_access_token true rec now code = .cachedToken rec.access_token ∧
    postsToTokenEndpoint (get_strava_access_token true rec now code) = false ∧
    writesTokenCache (get_strava_access_token true rec now code) = false := by
  simp [get_strava_access_token, he, hvalid, postsToTokenEndpoint, writesTokenCache]

/-- Witness for C6: the record valid until timestamp 100, queried at
timestamp 0, is returned from the cache with no POST and no file write. -/
theorem fresh_token_no_network_no_write_witness :
    get_strava_access_token true freshRecord 0 "code" = .cachedToken (some "cached-token") ∧
    postsToTokenEndpoint (get_strava_access_token true freshRecord 0 "code") = false ∧
    writesTokenCache (get_strava_access_token true freshRecord 0 "code") = false :=
  fresh_token_no_network_no_write freshRecord 0 100 "code" rfl (by norm_num)

/-- Claim C4, counterexample: for the cached record that is expired
(`expires_at = 0 < now = 1`) and has no refresh token, the flow does NOT
prompt for an authorization code; it proceeds to a refresh-token POST with
`refresh_token = None`. -/
theorem expired_no_refresh_does_not_prompt :
    get_strava_access_token true expiredNoRefresh 1 "pasted-code" = .refreshPost none ∧
    promptsForAuthCode (get_strava_access_token true expiredNoRefresh 1 "pasted-code") = false := by
  have h : get_strava_access_token true expiredNoRefresh 1 "pasted-code" = .refreshPost none := by
    simp [get_strava_access_token, expiredNoRefresh]
  exact ⟨h, by rw [h]; rfl⟩

/-- Claim C4, amended: for every cached token record whose `expires_at` is not
in the future and that contains no refresh token,
`get_strava_access_token` attempts a refresh-token exchange with a null
refresh token and does not prompt for an authorization code. -/
theorem expired_no_refresh_attempts_refresh (rec : TokenRecord) (now e : ℚ) (code : String)
    (he : rec.expires_at = some e) (hexp : ¬ now < e) (hrt : rec.refresh_token = none) :
    get_strava_access_token true rec now code = .refreshPost none ∧
    promptsForAuthCode (get_strava_access_token true rec now code) = false := by
  simp [get_strava_access_token, he, hexp, hrt, promptsForAuthCode]

/-- Witness for the amended C4, at the concrete expired record without a
refresh token. -/
theorem expired_no_refresh_attempts_refresh_witness :
    get_strava_access_token true expiredNoRefresh 1 "pasted" = .refreshPost none ∧
    promptsForAuthCode (get_strava_access_token true expiredNoRefresh 1 "pasted") = false :=
  expired_no_refresh_attempts_refresh expiredNoRefresh 1 0 "pasted" rfl (by norm_num) rfl

/-- Claim C10: if the token cache file exists but its JSON has no `expires_at`
field, the comparison `now < None` raises a `TypeError`; the record is
neither treated as expired (no refresh POST) nor does the flow prompt for
a new authorization code. -/
theorem missing_expires_at_raises_type_error (rec : TokenRecord) (now : ℚ) (code : String)
    (h : rec.expires_at = none) :
    get_strava_access_token true rec now code = .expiresAtTypeError ∧
    promptsForAuthCode (get_strava_access_token true rec now code) = false ∧
    postsToTokenEndpoint (get_strava_access_token true rec now code) = false := by
  simp [get_strava_access_token, h, promptsForAuthCode, postsToTokenEndpoint]

/-- Witness for C10 at a concrete record lacking `expires_at`. -/
theorem missing_expires_at_raises_type_error_witness :
    get_strava_access_token true noExpiryRecord 1 "c" = .expiresAtTypeError ∧
    promptsForAuthCode (get_strava_access_token true noExpiryRecord 1 "c") = false ∧
    postsToTokenEndpoint (get_strava_access_token true noExpiryRecord 1 "c") = false :=
  missing_expires_at_raises_type_error noExpiryRecord 1 "c" rfl

/-- Claim C9, counterexample: at 86400 seconds (one day) `seconds_to_hms`
renders `"1 day, 0:00:00"`, not the `H:MM:SS` text (`"24:00:00"`); so the
claim does not hold for every non-negative number of seconds. -/
theorem seconds_to_hms_day_boundary_not_hms :
    seconds_to_hms 86400 = "1 day, 0:00:00" ∧ seconds_to_hms 86400 ≠ hmsText 86400 := by
  constructor <;> decide

/-- Claim C9, amended: for every number of seconds below one day (86400),
`seconds_to_hms` renders exactly the `H:MM:SS` text; in particular
`seconds_to_hms 3661 = "1:01:01"`. -/
theorem seconds_to_hms_below_one_day_is_hms (s : Nat) (h : s < 86400) :
    seconds_to_hms s = hmsText s := by
  have hd : s / 86400 = 0 := Nat.div_eq_of_lt h
  have hm : s % 86400 = s := Nat.mod_eq_of_lt h
  simp [seconds_to_hms, hmsText, hd, hm]

/-- Witness for the amended C9: `seconds_to_hms 3661 = "1:01:01"`. -/
theorem seconds_to_hms_below_one_day_is_hms_witness :
    seconds_to_hms 3661 = "1:01:01" :=
  (seconds_to_hms_below_one_day_is_hms 3661 (by decide)).trans (by decide)

/-- Claim C2: when the spreadsheet read step raises `HttpError`, the handler
prints the error but `existing_values` was never assigned, so the next
statement (`if not existing_values:`, line 120) raises an uncaught
`UnboundLocalError` (a `NameError`): execution does not continue, no runs
are written, and the exception propagates to the top level — for every
incoming run list. -/
theorem read_error_crashes_with_name_error (runs : List Activity) :
    upload_runs_to_gsheets true (.error ()) runs = .raised .nameError := rfl

/-- Claim C7: a sheet whose rows after the header include an empty row makes the
dedupe loop raise: `int(row[0])` raises `IndexError`, and the except
handler itself re-evaluates `row[0]` inside its f-string and raises a
fresh, uncaught `IndexError` — the row is not skipped. -/
theorem empty_sheet_row_raises_index_error :
    buildExistingRuns [["ID"], []] = .error .indexError ∧
    upload_runs_to_gsheets true (.ok [["ID"], []]) [] = .raised .indexError :=
  ⟨rfl, rfl⟩

/-- Claim C3: the publisher's run loop appends exactly one row per incoming run
whose ID is not in the published set — in order, duplicates silently
skipped — and in particular, with existing IDs {1, 2} read from the sheet
and incoming runs with IDs 2 and 3, only the row for the run with ID 3 is
written. -/
theorem publish_appends_exactly_new_runs :
    (∀ (existing : Finset Int) (runs : List Activity) (init : List (List Cell)),
      newRunRows existing runs init =
        init ++ (runs.filter (fun r => !idInExisting r.id existing)).map rowOfRun) ∧
    upload_runs_to_gsheets true (.ok [["ID"], ["1"], ["2"]]) [runAct2, runAct3] =
      .wrote [rowOfRun runAct3] := by
  refine ⟨fun e r i => newRunRows_eq e r i, ?_⟩
  decide

/-- Claim C8, counterexample: with an empty sheet (published set empty) and an
empty incoming run list, every incoming run's ID is — vacuously — already
in the published set, yet a write call is still made: the header row is
written. -/
theorem empty_sheet_empty_runs_still_writes_header :
    upload_runs_to_gsheets true (.ok []) [] = .wrote [headerRow] ∧
    upload_runs_to_gsheets true (.ok []) [] ≠ .noWrite := by
  refine ⟨rfl, ?_⟩
  decide

/-- Claim C8, amended: for every invocation of the publisher where the published
set is nonempty and every incoming run's ID is already in it, no write
call is made. -/
theorem nonempty_set_all_duplicates_no_write (existing : Finset Int) (runs : List Activity)
    (hne : existing ≠ ∅)
    (hall : ∀ r ∈ runs, idInExisting r.id existing = true) :
    uploadGivenSet existing runs = .noWrite := by
  have hfilter : runs.filter (fun r => !idInExisting r.id existing) = [] := by
    refine List.filter_eq_nil_iff.mpr ?_
    intro a ha
    simp [hall a ha]
  have hv : buildValues existing runs = [] := by
    rw [buildValues, newRunRows_eq, hfilter, initValues, if_neg hne]
    simp
  simp [uploadGivenSet, hv]

/-- Witness for the amended C8: published set {1}, one incoming run with
ID 1 — no write. -/
theorem nonempty_set_all_duplicates_no_write_witness :
    uploadGivenSet {1} [runAct1] = .noWrite :=
  nonempty_set_all_duplicates_no_write {1} [runAct1] (by decide)
    (by
      intro r hr
      simp only [List.mem_singleton] at hr
      subst hr
      rfl)

/-- Claim C1: whenever `main`'s fetch loop terminates, the argument handed to
`upload_runs_to_gsheets` in upload mode is exactly the raw activity list
of the final fetched page — so every activity of the final page (Run or
not) is handed to the publisher, and nothing outside the final page (in
particular no run fetched on an earlier page) is. -/
theorem upload_arg_is_final_page_raw_activities
    (oracle : Nat → List Activity) (fuel : Nat) (st : MainState) (p : Nat)
    (h : mainLoop oracle fuel = some st)
    (hp : st.pagesFetched.getLast? = some p) :
    uploadedActivities st = oracle p ∧
    (∀ a, a ∈ oracle p → a ∈ uploadedActivities st) ∧
    (∀ a, a ∉ oracle p → a ∉ uploadedActivities st) := by
  obtain ⟨q, hq, hact⟩ := fetchLoop_last_page oracle fuel 1 [] [] st h
  have hqp : q = p := by
    rw [hq] at hp
    exact Option.some_injective _ hp
  subst hqp
  refine ⟨hact, fun a ha => ?_, fun a ha => ?_⟩
  · simpa [uploadedActivities, hact] using ha
  · simpa [uploadedActivities, hact] using ha

/-- A one-page history: the only page holds a single non-Run activity. -/
def oracleOnePage : Nat → List Activity := fun _ => [rideAct]

/-- The loop state after running `main`'s loop against `oracleOnePage`:
no run records, final `activities` is the ride page, one page fetched. -/
def onePageState : MainState :=
  { all_runs := [], activities := [rideAct], pagesFetched := [1] }

/-- Witness for C1: against the one-page history, the publisher argument
is that page's raw activity list (containing the non-Run activity). -/
theorem upload_arg_is_final_page_raw_activities_witness :
    uploadedActivities onePageState = oracleOnePage 1 :=
  (upload_arg_is_final_page_raw_activities oracleOnePage 1 onePageState 1 rfl rfl).1

/-- Claim C5: if every page `1..N` returns exactly 100 activities (the
`per_page` hard-coded in `main`) and page `N+1` returns fewer, then the
loop fetches exactly pages `1` through `N+1`, in increasing order starting
at page 1, and requests no further page. (`fuel ≥ N+1` discharges the
termination of the `while True` loop in the embedding.) -/
theorem pagination_fetches_pages_one_to_succ
    (oracle : Nat → List Activity) (N fuel : Nat)
    (hfull : ∀ i, 1 ≤ i → i ≤ N → (oracle i).length = 100)
    (hshort : (oracle (N + 1)).length < 100)
    (hfuel : N + 1 ≤ fuel) :
    ∃ st, mainLoop oracle fuel = some st ∧
      st.pagesFetched = List.range' 1 (N + 1) := by
  have h := fetchLoop_pages_exact oracle N fuel 1 [] []
    (fun i hi => hfull (1 + i) (by omega) (by omega))
    (by rwa [show 1 + N = N + 1 by omega])
    hfuel
  simpa [mainLoop] using h

/-- A two-page history: page 1 is full (100 activities), page 2 is empty. -/
def oracleTwoPages : Nat → List Activity :=
  fun p => if p = 1 then List.replicate 100 rideAct else []

/-- Witness for C5 with `N = 1`: page 1 full, page 2 short — exactly pages
`[1, 2]` are fetched. -/
theorem pagination_fetches_pages_one_to_succ_witness :
    ∃ st, mainLoop oracleTwoPages 2 = some st ∧
      st.pagesFetched = List.range' 1 2 :=
  pagination_fetches_pages_one_to_succ oracleTwoPages 1 2
    (fun i h1 h2 => by
      have hi : i = 1 := le_antisymm h2 h1
      subst hi
      simp [oracleTwoPages])
    (by norm_num [oracleTwoPages])
    (by omega)

end StravaScraper
